import Mathlib

/-!
Verification of the multi-source price acquisition layer of the
`cotacaoprodutos` repository (files `utils/api_connector.py` and `app.py`),
via a shallow embedding.

Modelling conventions:
* Calendar dates are `Int` (a day number); only their order matters to the code.
* Pandas `NaN`/`pd.NA` cells are `Option` values: `none` is a null cell,
  and `df.dropna` steps become `List.filter` on `Option.isSome`.
* A pandas `DataFrame` becomes `DF`: a list of rows plus Booleans recording
  which optional columns (`price_usd`, `exchange_rate`) exist, because the
  Python code branches on `'price_usd' in df.columns` as well as on
  `df['price_usd'].isnull().all()`.  The `date`, `price` and `product`
  columns always exist in every frame the code builds, so they need no flag.
* External I/O (the CEPEA page scrape, the PTAX exchange-rate endpoint, the
  BCB series endpoint, the parquet cache directory) is an oracle carried in a
  `World` record; each oracle describes the observable outcome of one
  request.  The functions are total: every raising path of the Python source
  is wrapped in `try/except` blocks that convert the exception into an empty
  result, and the embedding returns that converted value directly.
-/

/-- Native currency of a product in `product_info_map`
(`api_connector.py`, lines 26-34). -/
inductive Currency
  | brl
  | usd
deriving DecidableEq, Repr

/-- One row of a normalized price frame: the `date`, `price` (BRL leg),
`price_usd` and `exchange_rate` columns of the DataFrames built by
`CepeaAPI`.  `none` models a null cell. -/
structure Row where
  date : Int
  price : Option ℚ
  price_usd : Option ℚ
  exchange_rate : Option ℚ
deriving DecidableEq, Repr

/-- A pandas DataFrame as the code observes it: its rows, plus whether the
optional `price_usd` / `exchange_rate` columns exist at all (the Python
branches on column presence in addition to null-ness). -/
structure DF where
  hasPriceUsd : Bool
  hasExchangeRate : Bool
  rows : List Row
deriving DecidableEq, Repr

/-- `pd.DataFrame()` — the empty frame returned on every failure path. -/
def DF.empty : DF := ⟨false, false, []⟩

/-- The static catalog `CepeaAPI.product_info_map` (lines 26-34), restricted
to the field the price pipeline reads (`currency`); the `url_name` and
`id_indicador` fields only shape the request URL, which the `World` oracle
absorbs.  `none` models a code missing from the dict. -/
def product_info_map (code : String) : Option Currency :=
  if code = "BGI" then some Currency.brl
  else if code = "MIL" then some Currency.brl
  else if code = "SOJ" then some Currency.brl
  else if code = "CAF" then some Currency.usd
  else if code = "SUC" then some Currency.brl
  else none

/-- Observable outcome of the single PTAX request `_get_exchange_rate`
issues for one date: either the request raised (network error, bad status,
bad JSON), or it yielded the parsed `data['value']` list of
`cotacaoCompra` quotes. -/
inductive RateFetchResult
  | failure
  | payload (vals : List ℚ)
deriving DecidableEq, Repr

/-- `CepeaAPI._get_exchange_rate` (lines 57-75).  Returns the rate together
with a flag recording whether a network request was issued.  Future dates
(`date > today`) return the 5.0 fallback before any request; a raising
request, or a missing/empty `value` list, also falls back to 5.0. -/
def get_exchange_rate (today : Int) (fetch : Int → RateFetchResult)
    (date : Int) : ℚ × Bool :=
  if today < date then (5, false)
  else
    match fetch date with
    | RateFetchResult.failure => (5, true)
    | RateFetchResult.payload [] => (5, true)
    | RateFetchResult.payload (v :: _) => (v, true)

/-- One raw row of the scraped CEPEA table after the per-cell parses of
`_scrape_cepea_data`: `date` is the result of `pd.to_datetime(...,
errors='coerce')` (line 259), the price fields are the results of the
numeric coercions of lines 263-267 (`none` = unparseable cell). -/
structure RawRow where
  date : Option Int
  price : Option ℚ
  price_usd : Option ℚ
deriving DecidableEq, Repr

/-- Observable outcome of the scrape request: `fail` covers every path that
returns an empty frame before a table is in hand (request exception, bad
status, no matching table, `pd.read_html` error); `table` carries the
located table, with flags for whether a BRL-price header and a USD-price
header were recognized (lines 239-241) and the parsed rows. -/
inductive ScrapeOutcome
  | fail
  | table (hasPriceCol hasUsdCol : Bool) (rows : List RawRow)
deriving DecidableEq, Repr

/-- `CepeaAPI._scrape_cepea_data` (lines 117-311).  Returns the resulting
frame together with a flag recording whether an HTTP request was issued
(the unknown-product guard of lines 123-126 returns before any request).

Pipeline, in source order: drop rows whose date failed to parse (line 260);
if the BRL price column exists and is not all-null, drop rows with a null
BRL price, otherwise if the USD column exists and is not all-null, drop
rows with a null USD price, otherwise return empty (lines 270-276); filter
to `[start, end]` (line 280); empty after the filter returns empty (lines
301-303); a table with no BRL price column raises `KeyError` at the final
column projection (line 297), caught at line 307, hence empty; the
`price_usd` column is kept only when not all-null on the filtered frame
(lines 287-295).

Lines 258-267: `parseRows` keeps the rows whose date parsed
(`dropna(subset=['date'])`, line 260); a cell of a column the header scan
did not recognize is not part of the frame, hence `none`. -/
def parseRows (hasPriceCol hasUsdCol : Bool) (rows : List RawRow) : List Row :=
  rows.filterMap (fun r =>
    r.date.map (fun d =>
      ⟨d, if hasPriceCol then r.price else none,
          if hasUsdCol then r.price_usd else none, none⟩))

/-- Lines 269-276: if the BRL price column exists and is not all-null, drop
rows with a null BRL price; otherwise, if the USD column exists and is not
all-null, drop rows with a null USD price; otherwise no usable price column
remains (`none`, the error return of line 276). -/
def dropNullPrices (hasPriceCol hasUsdCol : Bool) (rows1 : List Row) :
    Option (List Row) :=
  if hasPriceCol = true ∧ ∃ r ∈ rows1, r.price ≠ none then
    some (rows1.filter (fun r => r.price.isSome))
  else if hasUsdCol = true ∧ ∃ r ∈ rows1, r.price_usd ≠ none then
    some (rows1.filter (fun r => r.price_usd.isSome))
  else none

def scrape_cepea_data (info : Option Currency) (s e : Int)
    (outcome : ScrapeOutcome) : DF × Bool :=
  match info with
  | none => (DF.empty, false)
  | some _ =>
    match outcome with
    | ScrapeOutcome.fail => (DF.empty, true)
    | ScrapeOutcome.table hasPriceCol hasUsdCol rows =>
      match dropNullPrices hasPriceCol hasUsdCol
          (parseRows hasPriceCol hasUsdCol rows) with
      | none => (DF.empty, true)
      | some rows2 =>
        let rows3 := rows2.filter (fun r => decide (s ≤ r.date ∧ r.date ≤ e))
        if rows3 = [] then (DF.empty, true)
        else if hasPriceCol = false then (DF.empty, true)
        else if ∃ r ∈ rows3, r.price_usd ≠ none then (⟨true, false, rows3⟩, true)
        else (⟨false, false, rows3.map (fun r => { r with price_usd := none })⟩, true)

/-- The ambient state `get_historical_prices` interacts with: the parquet
cache directory (keyed by product code and both dates; `none` models a
missing file and also a file `pd.read_parquet` fails on, which
`_load_from_cache` converts to `None`), the outcome of the one scrape this
call would perform, the PTAX oracle and the current date. -/
structure World where
  cache : String → Int → Int → Option DF
  scrapeOutcome : ScrapeOutcome
  rateFetch : Int → RateFetchResult
  today : Int

/-- The rate `_get_exchange_rate` yields in world `w` for a date. -/
def World.rate (w : World) (d : Int) : ℚ :=
  (get_exchange_rate w.today w.rateFetch d).1

/-- Result of one `get_historical_prices` call: the returned frame, the
world after the call (the cache may have been written), whether the call
fell through to the scraping path (cache miss), and whether the scraper
issued an HTTP request. -/
structure RunResult where
  result : DF
  world : World
  scraped : Bool
  httpScrape : Bool

/-- The cache-hit repair of lines 321-328: for a USD-native product whose
cached frame lacks a usable `price_usd` column, attach `exchange_rate` per
date (line 326), set `price_usd := price / exchange_rate` (line 327; a null
`price` yields a null quotient), and drop rows whose `price_usd` is null
(line 328). -/
def repair_usd (w : World) (d : DF) : DF :=
  let rows1 := d.rows.map (fun r =>
    let er := w.rate r.date
    { r with exchange_rate := some er,
             price_usd := r.price.map (fun p => p / er) })
  ⟨true, true, rows1.filter (fun r => r.price_usd.isSome)⟩

/-- The frame served on a cache hit (lines 319-329): repaired when the
product is USD-native and the cached `price_usd` column is absent or
all-null, otherwise served verbatim. -/
def hitServe (w : World) (code : String) (d : DF) : DF :=
  if product_info_map code = some Currency.usd ∧
      (d.hasPriceUsd = false ∨ ∀ r ∈ d.rows, r.price_usd = none) then
    repair_usd w d
  else d

/-- The currency reconciliation of lines 346-364, applied to the frame left
after the `dropna(['date','price'])` of line 344:
* BRL-native product with an absent or all-null `price_usd` column:
  attach `exchange_rate` per date and set `price_usd := price / rate`;
* USD-native product with an all-null `price` column: attach
  `exchange_rate` and set `price := price_usd * rate` (the `price` column
  always exists in the frames the scraper returns, so `'price' not in
  df.columns` is unreachable and the all-null test is what remains);
* otherwise, when `price_usd` exists but `exchange_rate` is absent or
  all-null, attach `exchange_rate` per date (lines 362-363). -/
def convertCurrency (w : World) (code : String) (df : DF) : DF :=
  let cur := product_info_map code
  if cur = some Currency.brl ∧
      (df.hasPriceUsd = false ∨ ∀ r ∈ df.rows, r.price_usd = none) then
    ⟨true, true, df.rows.map (fun r =>
      let er := w.rate r.date
      { r with exchange_rate := some er,
               price_usd := r.price.map (fun p => p / er) })⟩
  else if cur = some Currency.usd ∧ (∀ r ∈ df.rows, r.price = none) then
    ⟨df.hasPriceUsd, true, df.rows.map (fun r =>
      let er := w.rate r.date
      { r with exchange_rate := some er,
               price := r.price_usd.map (fun p => p * er) })⟩
  else if df.hasPriceUsd = true ∧
      (df.hasExchangeRate = false ∨ ∀ r ∈ df.rows, r.exchange_rate = none) then
    ⟨df.hasPriceUsd, true, df.rows.map (fun r =>
      { r with exchange_rate := some (w.rate r.date) })⟩
  else df

/-- The per-frame processing of the cache-miss path: the type coercions of
lines 339-342 are no-ops on already-typed rows, the
`dropna(subset=['date','price'])` of line 344 drops null-price rows (dates
are always present in scraped frames, so only the price part acts), the
currency reconciliation of lines 346-364 runs, and the
`dropna(subset=['price'])` of line 367 drops null prices again. -/
def postProcess (w : World) (code : String) (df0 : DF) : DF :=
  let df1 : DF := ⟨df0.hasPriceUsd, df0.hasExchangeRate,
                   df0.rows.filter (fun r => r.price.isSome)⟩
  let df2 := convertCurrency w code df1
  ⟨df2.hasPriceUsd, df2.hasExchangeRate,
   df2.rows.filter (fun r => r.price.isSome)⟩

/-- The cache-miss path of `get_historical_prices` (lines 331-370): scrape;
an empty scrape returns the empty frame without caching (lines 334-336);
otherwise the frame is post-processed, written to the cache (line 369) and
returned. -/
def fetchPath (w : World) (code : String) (s e : Int) : RunResult :=
  let scraped := scrape_cepea_data (product_info_map code) s e w.scrapeOutcome
  if scraped.1.rows = [] then ⟨DF.empty, w, true, scraped.2⟩
  else
    let dfF := postProcess w code scraped.1
    ⟨dfF,
     { w with cache := fun c a b =>
         if c = code ∧ a = s ∧ b = e then some dfF else w.cache c a b },
     true, scraped.2⟩

/-- `CepeaAPI.get_historical_prices` (lines 313-374).  A cached frame that
exists and is non-empty is served (with the USD repair when applicable) and
nothing is written; otherwise the call falls through to the scraping path.
The surrounding `try/except` of lines 315-374 makes the function total:
every internal failure has already been converted into an empty frame. -/
def get_historical_prices (w : World) (code : String) (s e : Int) :
    RunResult :=
  match w.cache code s e with
  | some d =>
    if d.rows = [] then fetchPath w code s e
    else ⟨hitServe w code d, w, false, false⟩
  | none => fetchPath w code s e

/-- Holds when `_load_from_cache` yields no usable entry for the key, or
the stored frame is empty — the conditions under which line 319 falls
through to the scrape. -/
def cacheMiss (w : World) (code : String) (s e : Int) : Prop :=
  match w.cache code s e with
  | none => True
  | some d => d.rows = []

/-- Claim C5: `_get_exchange_rate` returns the 5.0 fallback without any
network request for a date strictly after the current date, and for a
past-or-present date it returns the same fallback whenever the PTAX request
raises or its `value` list is empty; it never raises (the function is
total). -/
theorem c5_exchange_rate_fallback (today : Int) (fetch : Int → RateFetchResult)
    (d : Int) :
    (today < d → get_exchange_rate today fetch d = (5, false)) ∧
    (¬ today < d →
      (fetch d = RateFetchResult.failure ∨ fetch d = RateFetchResult.payload []) →
      (get_exchange_rate today fetch d).1 = 5) := by
  constructor
  · intro h
    simp [get_exchange_rate, h]
  · intro h hf
    rcases hf with hf | hf <;> simp [get_exchange_rate, h, hf]

/-- Witness for C5 at concrete inputs: date 10 is in the future of day 3,
so the fallback is returned with no request; date 2 is in the past and its
request fails, so the fallback is returned. -/
theorem c5_exchange_rate_fallback_witness :
    get_exchange_rate 3 (fun _ => RateFetchResult.failure) 10 = (5, false) ∧
    (get_exchange_rate 3 (fun _ => RateFetchResult.failure) 2).1 = 5 :=
  ⟨(c5_exchange_rate_fallback 3 (fun _ => RateFetchResult.failure) 10).1
      (by decide),
   (c5_exchange_rate_fallback 3 (fun _ => RateFetchResult.failure) 2).2
      (by decide) (Or.inl rfl)⟩

/-- On a cache miss (no entry, or an empty stored frame), the call is the
scraping path. -/
theorem get_historical_prices_of_miss (w : World) (code : String) (s e : Int)
    (hmiss : cacheMiss w code s e) :
    get_historical_prices w code s e = fetchPath w code s e := by
  unfold cacheMiss at hmiss
  unfold get_historical_prices
  rcases hw : w.cache code s e with _ | d
  · rfl
  · rw [hw] at hmiss
    have hm : d.rows = [] := hmiss
    simp [hm]

/-- When the requested range is inverted (`e < s`), the date filter of
line 280 keeps nothing, so every exit of the scraper is the empty frame. -/
theorem scrape_empty_of_inverted (info : Option Currency) (s e : Int)
    (o : ScrapeOutcome) (hlt : e < s) :
    (scrape_cepea_data info s e o).1 = DF.empty := by
  have hpred : ∀ (l : List Row),
      l.filter (fun r => decide (s ≤ r.date ∧ r.date ≤ e)) = [] := by
    intro l
    apply List.filter_eq_nil_iff.mpr
    intro a _
    simp only [decide_eq_true_eq]
    omega
  unfold scrape_cepea_data
  rcases info with _ | c
  · rfl
  rcases o with _ | ⟨hp, hu, rows⟩
  · rfl
  simp only
  split
  · rfl
  next rows2 heq =>
    rw [hpred rows2]
    simp

/-- The source fetch failed, in any of the modes the scraper exhibits:
either the request/table stage failed outright (network error, bad
status, no matching table, `pd.read_html` error — the `fail` outcome), or
a table was located but zero rows parsed successfully: every row lost its
date to the line 260 `dropna`, or no usable price column survived the
lines 270-276 checks — which is exactly `dropNullPrices ∘ parseRows`
yielding `none` on the table's rows. -/
def sourceFetchFailed (o : ScrapeOutcome) : Prop :=
  match o with
  | ScrapeOutcome.fail => True
  | ScrapeOutcome.table hp hu rows =>
      dropNullPrices hp hu (parseRows hp hu rows) = none

/-- Under any of the fetch-failure modes, the scraper returns the empty
frame (its only error channel: lines 126, 225, 230, 276, 303, 311 all
return `pd.DataFrame()`). -/
theorem scrape_empty_of_failed (info : Option Currency) (s e : Int)
    (o : ScrapeOutcome) (hfail : sourceFetchFailed o) :
    (scrape_cepea_data info s e o).1 = DF.empty := by
  rcases info with _ | c
  · rfl
  rcases o with _ | ⟨hp, hu, rows⟩
  · rfl
  have hd : dropNullPrices hp hu (parseRows hp hu rows) = none := hfail
  unfold scrape_cepea_data
  dsimp only
  rw [hd]

/-- Claim C1: when the source fetch fails on its (single) attempt — by
network error, absent table, or zero successfully parsed rows — and the
cache does not serve, `get_historical_prices` returns the empty frame and
leaves the world unchanged (nothing is cached).  The embedding is total
because every raising path of the Python source is caught inside the
service (lines 305-311, 372-374), so no exception reaches the caller. -/
theorem c1_source_failure_yields_empty (w : World) (code : String) (s e : Int)
    (hfail : sourceFetchFailed w.scrapeOutcome)
    (hmiss : cacheMiss w code s e) :
    (get_historical_prices w code s e).result = DF.empty ∧
    (get_historical_prices w code s e).world = w := by
  rw [get_historical_prices_of_miss w code s e hmiss]
  have hs := scrape_empty_of_failed (product_info_map code) s e
    w.scrapeOutcome hfail
  simp [fetchPath, hs, DF.empty]

/-- Witness for C1, exercising both failure modes at concrete inputs:
a failing request for `"BGI"`, and a located table for `"BGI"` whose only
row has an unparseable date (so zero rows parse). -/
theorem c1_source_failure_yields_empty_witness :
    ((get_historical_prices
      ⟨fun _ _ _ => none, ScrapeOutcome.fail,
       fun _ => RateFetchResult.failure, 0⟩ "BGI" 0 1).result = DF.empty ∧
     (get_historical_prices
      ⟨fun _ _ _ => none, ScrapeOutcome.fail,
       fun _ => RateFetchResult.failure, 0⟩ "BGI" 0 1).world =
      ⟨fun _ _ _ => none, ScrapeOutcome.fail,
       fun _ => RateFetchResult.failure, 0⟩) ∧
    ((get_historical_prices
      ⟨fun _ _ _ => none,
       ScrapeOutcome.table true false [⟨none, some 10, none⟩],
       fun _ => RateFetchResult.failure, 0⟩ "BGI" 0 1).result = DF.empty ∧
     (get_historical_prices
      ⟨fun _ _ _ => none,
       ScrapeOutcome.table true false [⟨none, some 10, none⟩],
       fun _ => RateFetchResult.failure, 0⟩ "BGI" 0 1).world =
      ⟨fun _ _ _ => none,
       ScrapeOutcome.table true false [⟨none, some 10, none⟩],
       fun _ => RateFetchResult.failure, 0⟩) :=
  ⟨c1_source_failure_yields_empty
      ⟨fun _ _ _ => none, ScrapeOutcome.fail,
       fun _ => RateFetchResult.failure, 0⟩
      "BGI" 0 1 trivial trivial,
   c1_source_failure_yields_empty
      ⟨fun _ _ _ => none,
       ScrapeOutcome.table true false [⟨none, some 10, none⟩],
       fun _ => RateFetchResult.failure, 0⟩
      "BGI" 0 1 rfl trivial⟩

/-- Counterexample to claim C2: for the known product `"BGI"` with
`end = 5 < 10 = start` and an empty cache, the service issues the scrape
HTTP request (`httpScrape = true`) — so the inverted range is *not*
rejected before a network call — and it returns the ordinary empty frame
rather than failing with `InvalidRange` (no such error exists anywhere in
`get_historical_prices`, whose only outcome is a DataFrame). -/
theorem c2_counterexample :
    (get_historical_prices
      ⟨fun _ _ _ => none,
       ScrapeOutcome.table true false [⟨some 3, some 100, none⟩],
       fun _ => RateFetchResult.failure, 1000⟩ "BGI" 10 5).httpScrape = true ∧
    (get_historical_prices
      ⟨fun _ _ _ => none,
       ScrapeOutcome.table true false [⟨some 3, some 100, none⟩],
       fun _ => RateFetchResult.failure, 1000⟩ "BGI" 10 5).result = DF.empty := by
  constructor <;> decide

/-- Claim C2 as amended: with `end < start`, `get_historical_prices` does
not reject the request; on a cache miss it proceeds down the fetch path
(scraping included) and returns an empty frame only because the empty date
interval filters every row out. -/
theorem c2_amended_inverted_range_not_rejected (w : World) (code : String)
    (s e : Int) (hlt : e < s) (hmiss : cacheMiss w code s e) :
    (get_historical_prices w code s e).result = DF.empty ∧
    (get_historical_prices w code s e).scraped = true := by
  rw [get_historical_prices_of_miss w code s e hmiss]
  have hs := scrape_empty_of_inverted (product_info_map code) s e w.scrapeOutcome hlt
  simp [fetchPath, hs, DF.empty]

/-- Witness for the amended C2: empty cache, start 10, end 5. -/
theorem c2_amended_inverted_range_not_rejected_witness :
    (get_historical_prices
      ⟨fun _ _ _ => none,
       ScrapeOutcome.table true false [⟨some 3, some 100, none⟩],
       fun _ => RateFetchResult.failure, 1000⟩ "BGI" 10 5).result = DF.empty ∧
    (get_historical_prices
      ⟨fun _ _ _ => none,
       ScrapeOutcome.table true false [⟨some 3, some 100, none⟩],
       fun _ => RateFetchResult.failure, 1000⟩ "BGI" 10 5).scraped = true :=
  c2_amended_inverted_range_not_rejected
    ⟨fun _ _ _ => none,
     ScrapeOutcome.table true false [⟨some 3, some 100, none⟩],
     fun _ => RateFetchResult.failure, 1000⟩
    "BGI" 10 5 (by decide) trivial

/-- Counterexample to claim C3: for the unknown code `"UNKNOWN_CODE"` with
an empty cache, `get_historical_prices` returns the ordinary empty frame —
a normal result — and never produces an `UnknownProduct` error; its only
outcome type is a DataFrame (the scraper logs the unknown code at
lines 123-126 and returns an empty frame). -/
theorem c3_counterexample :
    (get_historical_prices
      ⟨fun _ _ _ => none, ScrapeOutcome.fail,
       fun _ => RateFetchResult.failure, 1000⟩ "UNKNOWN_CODE" 1 2).result =
      DF.empty ∧
    (get_historical_prices
      ⟨fun _ _ _ => none, ScrapeOutcome.fail,
       fun _ => RateFetchResult.failure, 1000⟩ "UNKNOWN_CODE" 1 2).httpScrape =
      false := by
  constructor <;> decide

/-- Claim C3 as amended: a code absent from `product_info_map` makes
`get_historical_prices` (on a cache miss) return an empty frame as a normal
result, without issuing any HTTP request and without touching the world; no
caller-visible error result exists. -/
theorem c3_amended_unknown_code_empty (w : World) (code : String) (s e : Int)
    (hunknown : product_info_map code = none) (hmiss : cacheMiss w code s e) :
    (get_historical_prices w code s e).result = DF.empty ∧
    (get_historical_prices w code s e).httpScrape = false ∧
    (get_historical_prices w code s e).world = w := by
  rw [get_historical_prices_of_miss w code s e hmiss]
  unfold fetchPath
  rw [hunknown]
  simp [scrape_cepea_data, DF.empty]

/-- Witness for the amended C3 at `"UNKNOWN_CODE"`. -/
theorem c3_amended_unknown_code_empty_witness :
    (get_historical_prices
      ⟨fun _ _ _ => none, ScrapeOutcome.fail,
       fun _ => RateFetchResult.failure, 1000⟩ "UNKNOWN_CODE" 1 2).result =
      DF.empty ∧
    (get_historical_prices
      ⟨fun _ _ _ => none, ScrapeOutcome.fail,
       fun _ => RateFetchResult.failure, 1000⟩ "UNKNOWN_CODE" 1 2).httpScrape =
      false ∧
    (get_historical_prices
      ⟨fun _ _ _ => none, ScrapeOutcome.fail,
       fun _ => RateFetchResult.failure, 1000⟩ "UNKNOWN_CODE" 1 2).world =
      ⟨fun _ _ _ => none, ScrapeOutcome.fail,
       fun _ => RateFetchResult.failure, 1000⟩ :=
  c3_amended_unknown_code_empty
    ⟨fun _ _ _ => none, ScrapeOutcome.fail, fun _ => RateFetchResult.failure, 1000⟩
    "UNKNOWN_CODE" 1 2 (by decide) trivial

/-- On a non-empty cache hit the call serves `hitServe` and leaves the
world untouched (the hit path of lines 319-329 performs no write). -/
theorem get_historical_prices_of_hit (w : World) (code : String) (s e : Int)
    (d : DF) (hc : w.cache code s e = some d) (hne : d.rows ≠ []) :
    get_historical_prices w code s e = ⟨hitServe w code d, w, false, false⟩ := by
  unfold get_historical_prices
  rw [hc]
  simp [hne]

/-- Claim C8: when a (non-empty) cache entry exists for the key, two
successive calls with the same arguments return identical frames, and the
first call leaves the stored cache untouched — the hit path performs no
write, and the repair of lines 321-328 only rebuilds the in-memory frame
from the unchanged entry and the deterministic rate oracle. -/
theorem c8_cache_hit_idempotent (w : World) (code : String) (s e : Int)
    (d : DF) (hc : w.cache code s e = some d) (hne : d.rows ≠ []) :
    (get_historical_prices
      (get_historical_prices w code s e).world code s e).result =
      (get_historical_prices w code s e).result ∧
    (get_historical_prices w code s e).world = w := by
  have h1 := get_historical_prices_of_hit w code s e d hc hne
  constructor
  · rw [h1]
    dsimp only
    rw [h1]
  · rw [h1]

/-- Witness for C8: a one-row cached entry for `("BGI", 0, 1)`. -/
theorem c8_cache_hit_idempotent_witness :
    (get_historical_prices
      (get_historical_prices
        ⟨fun _ _ _ => some ⟨false, false, [⟨0, some 10, none, none⟩]⟩,
         ScrapeOutcome.fail, fun _ => RateFetchResult.failure, 100⟩
        "BGI" 0 1).world "BGI" 0 1).result =
      (get_historical_prices
        ⟨fun _ _ _ => some ⟨false, false, [⟨0, some 10, none, none⟩]⟩,
         ScrapeOutcome.fail, fun _ => RateFetchResult.failure, 100⟩
        "BGI" 0 1).result ∧
    (get_historical_prices
      ⟨fun _ _ _ => some ⟨false, false, [⟨0, some 10, none, none⟩]⟩,
       ScrapeOutcome.fail, fun _ => RateFetchResult.failure, 100⟩
      "BGI" 0 1).world =
      ⟨fun _ _ _ => some ⟨false, false, [⟨0, some 10, none, none⟩]⟩,
       ScrapeOutcome.fail, fun _ => RateFetchResult.failure, 100⟩ :=
  c8_cache_hit_idempotent
    ⟨fun _ _ _ => some ⟨false, false, [⟨0, some 10, none, none⟩]⟩,
     ScrapeOutcome.fail, fun _ => RateFetchResult.failure, 100⟩
    "BGI" 0 1 ⟨false, false, [⟨0, some 10, none, none⟩]⟩ rfl (by decide)

/-- Claim C10: the cache-hit repair for a USD-native product (missing or
all-null `price_usd`) returns the repaired frame in memory, but the
on-disk entry for the key still holds the unrepaired frame after the call,
so a second identical call performs the same repair again and returns the
same repaired frame. -/
theorem c10_repair_not_persisted (w : World) (code : String) (s e : Int)
    (d : DF) (hc : w.cache code s e = some d) (hne : d.rows ≠ [])
    (hcur : product_info_map code = some Currency.usd)
    (hrep : d.hasPriceUsd = false ∨ ∀ r ∈ d.rows, r.price_usd = none) :
    (get_historical_prices w code s e).result = repair_usd w d ∧
    (get_historical_prices w code s e).world.cache code s e = some d ∧
    (get_historical_prices
      (get_historical_prices w code s e).world code s e).result =
      repair_usd w d := by
  have hs : hitServe w code d = repair_usd w d := by
    unfold hitServe
    rw [if_pos ⟨hcur, hrep⟩]
  have h1 : get_historical_prices w code s e =
      ⟨repair_usd w d, w, false, false⟩ := by
    rw [get_historical_prices_of_hit w code s e d hc hne, hs]
  refine ⟨congrArg RunResult.result h1, ?_, ?_⟩
  · rw [h1]
    exact hc
  · rw [h1]
    exact congrArg RunResult.result h1

/-- Witness for C10: USD-native `"CAF"`, a cached row with no USD leg, a
PTAX rate of 5 for its date. -/
theorem c10_repair_not_persisted_witness :
    (get_historical_prices
      ⟨fun _ _ _ => some ⟨false, false, [⟨0, some 10, none, none⟩]⟩,
       ScrapeOutcome.fail, fun _ => RateFetchResult.payload [5], 100⟩
      "CAF" 0 1).result =
      repair_usd
        ⟨fun _ _ _ => some ⟨false, false, [⟨0, some 10, none, none⟩]⟩,
         ScrapeOutcome.fail, fun _ => RateFetchResult.payload [5], 100⟩
        ⟨false, false, [⟨0, some 10, none, none⟩]⟩ ∧
    (get_historical_prices
      ⟨fun _ _ _ => some ⟨false, false, [⟨0, some 10, none, none⟩]⟩,
       ScrapeOutcome.fail, fun _ => RateFetchResult.payload [5], 100⟩
      "CAF" 0 1).world.cache "CAF" 0 1 =
      some ⟨false, false, [⟨0, some 10, none, none⟩]⟩ ∧
    (get_historical_prices
      (get_historical_prices
        ⟨fun _ _ _ => some ⟨false, false, [⟨0, some 10, none, none⟩]⟩,
         ScrapeOutcome.fail, fun _ => RateFetchResult.payload [5], 100⟩
        "CAF" 0 1).world "CAF" 0 1).result =
      repair_usd
        ⟨fun _ _ _ => some ⟨false, false, [⟨0, some 10, none, none⟩]⟩,
         ScrapeOutcome.fail, fun _ => RateFetchResult.payload [5], 100⟩
        ⟨false, false, [⟨0, some 10, none, none⟩]⟩ :=
  c10_repair_not_persisted
    ⟨fun _ _ _ => some ⟨false, false, [⟨0, some 10, none, none⟩]⟩,
     ScrapeOutcome.fail, fun _ => RateFetchResult.payload [5], 100⟩
    "CAF" 0 1 ⟨false, false, [⟨0, some 10, none, none⟩]⟩
    rfl (by decide) (by decide) (Or.inl rfl)

/-- The fetch path always records that the scrape path ran. -/
theorem fetchPath_scraped (w : World) (code : String) (s e : Int) :
    (fetchPath w code s e).scraped = true := by
  unfold fetchPath
  dsimp only
  split <;> rfl

/-- Counterexample to claim C9: a fetch whose scraped table has one
in-range row with a null BRL price and a parsed USD price.  The scraper
keeps the row (its USD leg is non-null), so the line 334 emptiness guard
passes; the `dropna(['date','price'])` of line 344 then drops it, and the
now-empty frame is written to the cache at line 369 — an empty fetch
result IS written to the cache. -/
theorem c9_counterexample :
    (get_historical_prices
      ⟨fun _ _ _ => none,
       ScrapeOutcome.table true true [⟨some 3, none, some 10⟩],
       fun _ => RateFetchResult.failure, 1000⟩
      "BGI" 0 10).world.cache "BGI" 0 10 = some ⟨true, true, []⟩ ∧
    (get_historical_prices
      ⟨fun _ _ _ => none,
       ScrapeOutcome.table true true [⟨some 3, none, some 10⟩],
       fun _ => RateFetchResult.failure, 1000⟩
      "BGI" 0 10).result.rows = [] := by
  constructor <;> decide

/-- Claim C9 as amended: an empty *processed* fetch result can be written
to the cache (see the counterexample), but the serving side of the claim
holds: whenever a call returns without running the fetch path, the stored
entry it served was non-empty, and a stored entry with an empty payload is
treated as a miss (the call runs the fetch path). -/
theorem c9_amended_served_entries_nonempty (w : World) (code : String)
    (s e : Int) :
    ((get_historical_prices w code s e).scraped = false →
      ∃ d, w.cache code s e = some d ∧ d.rows ≠ []) ∧
    (∀ d, w.cache code s e = some d → d.rows = [] →
      (get_historical_prices w code s e).scraped = true) := by
  constructor
  · intro hserve
    rcases hw : w.cache code s e with _ | d
    · have hm : cacheMiss w code s e := by
        unfold cacheMiss
        rw [hw]
        trivial
      rw [get_historical_prices_of_miss w code s e hm, fetchPath_scraped] at hserve
      simp at hserve
    · by_cases hne : d.rows = []
      · have hm : cacheMiss w code s e := by
          unfold cacheMiss
          rw [hw]
          exact hne
        rw [get_historical_prices_of_miss w code s e hm, fetchPath_scraped] at hserve
        simp at hserve
      · exact ⟨d, rfl, hne⟩
  · intro d hd hrows
    have hm : cacheMiss w code s e := by
      unfold cacheMiss
      rw [hd]
      exact hrows
    rw [get_historical_prices_of_miss w code s e hm, fetchPath_scraped]

/-- Witness for the amended C9: a world serving a non-empty entry for
`("BGI", 0, 1)` (first part), and a world holding an empty entry for the
same key, which is refetched (second part). -/
theorem c9_amended_served_entries_nonempty_witness :
    (∃ d, (⟨fun _ _ _ => some ⟨false, false, [⟨0, some 1, none, none⟩]⟩,
            ScrapeOutcome.fail, fun _ => RateFetchResult.failure, 0⟩ :
            World).cache "BGI" 0 1 = some d ∧ d.rows ≠ []) ∧
    (get_historical_prices
      ⟨fun _ _ _ => some ⟨false, false, []⟩,
       ScrapeOutcome.fail, fun _ => RateFetchResult.failure, 0⟩
      "BGI" 0 1).scraped = true :=
  ⟨(c9_amended_served_entries_nonempty
      ⟨fun _ _ _ => some ⟨false, false, [⟨0, some 1, none, none⟩]⟩,
       ScrapeOutcome.fail, fun _ => RateFetchResult.failure, 0⟩
      "BGI" 0 1).1 (by decide),
   (c9_amended_served_entries_nonempty
      ⟨fun _ _ _ => some ⟨false, false, []⟩,
       ScrapeOutcome.fail, fun _ => RateFetchResult.failure, 0⟩
      "BGI" 0 1).2 ⟨false, false, []⟩ rfl rfl⟩

/-- Dates carried by the raw scraped table (rows whose date cell parsed). -/
def rawDates : ScrapeOutcome → List Int
  | ScrapeOutcome.fail => []
  | ScrapeOutcome.table _ _ rows => rows.filterMap RawRow.date

/-- `parseRows` keeps exactly the parsed dates, in table order. -/
theorem parseRows_dates (hp hu : Bool) (rows : List RawRow) :
    (parseRows hp hu rows).map Row.date = rows.filterMap RawRow.date := by
  unfold parseRows
  induction rows with
  | nil => rfl
  | cons a t ih =>
    rw [List.filterMap_cons, List.filterMap_cons]
    cases ha : a.date <;> simp [ha, ih]

/-- A successful `dropNullPrices` only removes rows. -/
theorem dropNullPrices_sublist (hp hu : Bool) (l l2 : List Row)
    (h : dropNullPrices hp hu l = some l2) : l2.Sublist l := by
  unfold dropNullPrices at h
  split at h
  · injection h with h
    subst h
    exact List.filter_sublist _
  · split at h
    · injection h with h
      subst h
      exact List.filter_sublist _
    · cases h

/-- Mapping a date-preserving function over rows preserves the date list. -/
theorem map_date_of_preserve (f : Row → Row) (hf : ∀ r, (f r).date = r.date)
    (l : List Row) : (l.map f).map Row.date = l.map Row.date := by
  induction l with
  | nil => rfl
  | cons a t ih => simp [hf, ih]

/-- Currency reconciliation touches only price columns, never dates. -/
theorem convertCurrency_dates (w : World) (code : String) (df : DF) :
    (convertCurrency w code df).rows.map Row.date = df.rows.map Row.date := by
  unfold convertCurrency
  dsimp only
  split
  · apply map_date_of_preserve
    intro r
    rfl
  · split
    · apply map_date_of_preserve
      intro r
      rfl
    · split
      · apply map_date_of_preserve
        intro r
        rfl
      · rfl

/-- Every reconciled row descends from an input row with the same date. -/
theorem convertCurrency_mem (w : World) (code : String) (df : DF) (r : Row)
    (hr : r ∈ (convertCurrency w code df).rows) :
    ∃ r0 ∈ df.rows, r.date = r0.date := by
  unfold convertCurrency at hr
  dsimp only at hr
  split at hr
  · rcases List.mem_map.mp hr with ⟨r0, h0, heq⟩
    subst heq
    exact ⟨r0, h0, rfl⟩
  · split at hr
    · rcases List.mem_map.mp hr with ⟨r0, h0, heq⟩
      subst heq
      exact ⟨r0, h0, rfl⟩
    · split at hr
      · rcases List.mem_map.mp hr with ⟨r0, h0, heq⟩
        subst heq
        exact ⟨r0, h0, rfl⟩
      · exact ⟨r, hr, rfl⟩

/-- Post-processing only drops rows and rewrites prices: the date list of
the result is a sublist (same order) of the input's date list. -/
theorem postProcess_dates_sublist (w : World) (code : String) (df0 : DF) :
    ((postProcess w code df0).rows.map Row.date).Sublist
      (df0.rows.map Row.date) := by
  unfold postProcess
  dsimp only
  have h1 : ((convertCurrency w code
      ⟨df0.hasPriceUsd, df0.hasExchangeRate,
       df0.rows.filter (fun r => r.price.isSome)⟩).rows.filter
        (fun r => r.price.isSome)).Sublist
      (convertCurrency w code ⟨df0.hasPriceUsd, df0.hasExchangeRate,
       df0.rows.filter (fun r => r.price.isSome)⟩).rows :=
    List.filter_sublist _
  have h2 := convertCurrency_dates w code
      ⟨df0.hasPriceUsd, df0.hasExchangeRate,
       df0.rows.filter (fun r => r.price.isSome)⟩
  have h3 : ((df0.rows.filter (fun r => r.price.isSome)).map Row.date).Sublist
      (df0.rows.map Row.date) := (List.filter_sublist _).map Row.date
  refine List.Sublist.trans ?_ h3
  rw [← h2]
  exact h1.map Row.date

/-- Every post-processed row descends from an input row of the same date. -/
theorem postProcess_mem (w : World) (code : String) (df0 : DF) (r : Row)
    (hr : r ∈ (postProcess w code df0).rows) :
    ∃ r0 ∈ df0.rows, r.date = r0.date := by
  unfold postProcess at hr
  dsimp only at hr
  have hr2 : r ∈ (convertCurrency w code
      ⟨df0.hasPriceUsd, df0.hasExchangeRate,
       df0.rows.filter (fun r => r.price.isSome)⟩).rows :=
    List.mem_of_mem_filter hr
  rcases convertCurrency_mem w code _ r hr2 with ⟨r0, h0, hd⟩
  exact ⟨r0, List.mem_of_mem_filter h0, hd⟩

/-- The scraper's frame respects the requested range (line 280 filter) and
its date list is an order-preserving sublist of the raw table's dates: the
scraper never reorders rows and never merges duplicates. -/
theorem scrape_dates_inrange_sublist (info : Option Currency) (s e : Int)
    (o : ScrapeOutcome) :
    (∀ r ∈ (scrape_cepea_data info s e o).1.rows, s ≤ r.date ∧ r.date ≤ e) ∧
    (((scrape_cepea_data info s e o).1.rows.map Row.date).Sublist
      (rawDates o)) := by
  rcases info with _ | c
  · exact ⟨fun r hr => absurd hr (by simp [scrape_cepea_data, DF.empty]),
           by simp [scrape_cepea_data, DF.empty]⟩
  rcases o with _ | ⟨hp, hu, rows⟩
  · exact ⟨fun r hr => absurd hr (by simp [scrape_cepea_data, DF.empty]),
           by simp [scrape_cepea_data, DF.empty]⟩
  rcases hdrop : dropNullPrices hp hu (parseRows hp hu rows) with _ | rows2
  · constructor
    · intro r hr
      simp [scrape_cepea_data, hdrop, DF.empty] at hr
    · simp [scrape_cepea_data, hdrop, DF.empty]
  have hmem3 : ∀ r ∈ rows2.filter (fun r => decide (s ≤ r.date ∧ r.date ≤ e)),
      s ≤ r.date ∧ r.date ≤ e := by
    intro r hr
    have h := (List.mem_filter.mp hr).2
    simpa using h
  have hsub3 : (rows2.filter
      (fun r => decide (s ≤ r.date ∧ r.date ≤ e))).Sublist
      (parseRows hp hu rows) :=
    (List.filter_sublist rows2).trans
      (dropNullPrices_sublist hp hu _ rows2 hdrop)
  have hdates3 : ((rows2.filter
      (fun r => decide (s ≤ r.date ∧ r.date ≤ e))).map Row.date).Sublist
      (rawDates (ScrapeOutcome.table hp hu rows)) := by
    have h := hsub3.map Row.date
    rw [parseRows_dates hp hu rows] at h
    simpa [rawDates] using h
  unfold scrape_cepea_data
  dsimp only
  rw [hdrop]
  dsimp only
  split
  · exact ⟨fun r hr => absurd hr (by simp [DF.empty]), by simp [DF.empty]⟩
  split
  · exact ⟨fun r hr => absurd hr (by simp [DF.empty]), by simp [DF.empty]⟩
  split
  · exact ⟨hmem3, hdates3⟩
  · constructor
    · intro r hr
      have hr2 : r ∈ (rows2.filter
          (fun r => decide (s ≤ r.date ∧ r.date ≤ e))).map
          (fun r => { r with price_usd := none }) := hr
      rcases List.mem_map.mp hr2 with ⟨r0, h0, heq⟩
      subst heq
      exact hmem3 r0 h0
    · show (((rows2.filter (fun r => decide (s ≤ r.date ∧ r.date ≤ e))).map
          (fun r => { r with price_usd := none })).map Row.date).Sublist
          (rawDates (ScrapeOutcome.table hp hu rows))
      rw [map_date_of_preserve (fun r => { r with price_usd := none })
        (fun r => rfl)]
      exact hdates3

/-- `true` iff each element is strictly smaller than its successor — the
"sorted strictly ascending, no duplicate dates" shape the spec asserts. -/
def strictlyAscending : List Int → Bool
  | a :: b :: t => decide (a < b) && strictlyAscending (b :: t)
  | _ => true

/-- Counterexample to claim C4: a valid request (known BRL product `"BGI"`,
start 0 ≤ end 10, cache miss) whose scraped table holds in-range rows with
dates 5, 3, 5.  The returned sequence keeps the source order and the
duplicate — dates `[5, 3, 5]` — so it is neither sorted strictly ascending
nor duplicate-free: no sort and no duplicate resolution exist anywhere in
`get_historical_prices` or `_scrape_cepea_data`. -/
theorem c4_counterexample :
    ((get_historical_prices
      ⟨fun _ _ _ => none,
       ScrapeOutcome.table true false
         [⟨some 5, some 10, none⟩, ⟨some 3, some 11, none⟩,
          ⟨some 5, some 12, none⟩],
       fun _ => RateFetchResult.failure, 1000⟩
      "BGI" 0 10).result.rows.map Row.date = [5, 3, 5]) ∧
    strictlyAscending
      ((get_historical_prices
        ⟨fun _ _ _ => none,
         ScrapeOutcome.table true false
           [⟨some 5, some 10, none⟩, ⟨some 3, some 11, none⟩,
            ⟨some 5, some 12, none⟩],
         fun _ => RateFetchResult.failure, 1000⟩
        "BGI" 0 10).result.rows.map Row.date) = false := by
  constructor
  · decide
  · decide

/-- Claim C4 as amended: for a valid request on a cache miss, every
returned row's date lies in `[start, end]` (the scraper's only date
filter, line 280), and the returned date list is an order-preserving
sublist of the scraped table's date list — rows are never reordered and
duplicate dates are never merged, so the output is sorted or
duplicate-free only when the source already was. -/
theorem c4_amended_range_filter_source_order (w : World) (code : String)
    (s e : Int) (hmiss : cacheMiss w code s e) :
    (∀ r ∈ (get_historical_prices w code s e).result.rows,
      s ≤ r.date ∧ r.date ≤ e) ∧
    (((get_historical_prices w code s e).result.rows.map Row.date).Sublist
      (rawDates w.scrapeOutcome)) := by
  rw [get_historical_prices_of_miss w code s e hmiss]
  have hscr := scrape_dates_inrange_sublist (product_info_map code) s e
    w.scrapeOutcome
  unfold fetchPath
  dsimp only
  split
  · exact ⟨fun r hr => absurd hr (by simp [DF.empty]), by simp [DF.empty]⟩
  · constructor
    · intro r hr
      rcases postProcess_mem w code _ r hr with ⟨r0, h0, hd⟩
      rw [hd]
      exact hscr.1 r0 h0
    · exact (postProcess_dates_sublist w code _).trans hscr.2

/-- Witness for the amended C4: the counterexample world, where the result
dates `[5, 3, 5]` are indeed in `[0, 10]` and a sublist of the raw dates
`[5, 3, 5]`. -/
theorem c4_amended_range_filter_source_order_witness :
    (∀ r ∈ (get_historical_prices
      ⟨fun _ _ _ => none,
       ScrapeOutcome.table true false
         [⟨some 5, some 10, none⟩, ⟨some 3, some 11, none⟩,
          ⟨some 5, some 12, none⟩],
       fun _ => RateFetchResult.failure, 1000⟩
      "BGI" 0 10).result.rows, (0 : Int) ≤ r.date ∧ r.date ≤ 10) ∧
    (((get_historical_prices
      ⟨fun _ _ _ => none,
       ScrapeOutcome.table true false
         [⟨some 5, some 10, none⟩, ⟨some 3, some 11, none⟩,
          ⟨some 5, some 12, none⟩],
       fun _ => RateFetchResult.failure, 1000⟩
      "BGI" 0 10).result.rows.map Row.date).Sublist
      (rawDates (ScrapeOutcome.table true false
         [⟨some 5, some 10, none⟩, ⟨some 3, some 11, none⟩,
          ⟨some 5, some 12, none⟩]))) :=
  c4_amended_range_filter_source_order
    ⟨fun _ _ _ => none,
     ScrapeOutcome.table true false
       [⟨some 5, some 10, none⟩, ⟨some 3, some 11, none⟩,
        ⟨some 5, some 12, none⟩],
     fun _ => RateFetchResult.failure, 1000⟩
    "BGI" 0 10 trivial

/-- Counterexample to claim C6: BRL product `"BGI"`, cache miss, the source
supplies both legs (scraped `price = 100`, `price_usd = 1`) and the PTAX
rate for the row's date is 5.  The code attaches `exchange_rate = 5`
(lines 362-363) without touching either leg, so the returned row has
`price_local = 100` while `price_usd × exchange_rate_used = 5`: the claimed
0.01 relative consistency `|100 - 1·5| ≤ 0.01·100` fails — nothing in the
code reconciles two source-supplied legs. -/
theorem c6_counterexample :
    (get_historical_prices
      ⟨fun _ _ _ => none,
       ScrapeOutcome.table true true [⟨some 3, some 100, some 1⟩],
       fun _ => RateFetchResult.failure, 1000⟩
      "BGI" 0 10).result.rows = [⟨3, some 100, some 1, some 5⟩] ∧
    ¬ |(100 : ℚ) - 1 * 5| ≤ 1 / 100 * 100 := by
  constructor
  · decide
  · norm_num

/-- Rows built by `parseRows` for a table with no USD column carry a null
`price_usd`. -/
theorem parseRows_noUsd (hp : Bool) (rs : List RawRow) (r : Row)
    (hr : r ∈ parseRows hp false rs) : r.price_usd = none := by
  unfold parseRows at hr
  rcases List.mem_filterMap.mp hr with ⟨a, ha, heq⟩
  cases had : a.date
  · rw [had] at heq
    simp at heq
  · rw [had] at heq
    simp only [Option.map_some'] at heq
    injection heq with h2
    subst h2
    rfl

/-- A scrape of a table with no recognized USD column yields a frame
without the `price_usd` column (line 294 drops the all-null column). -/
theorem scrape_noUsdCol (info : Option Currency) (s e : Int) (hp : Bool)
    (rs : List RawRow) :
    (scrape_cepea_data info s e
      (ScrapeOutcome.table hp false rs)).1.hasPriceUsd = false := by
  rcases info with _ | c
  · rfl
  unfold scrape_cepea_data
  dsimp only
  rcases hdrop : dropNullPrices hp false (parseRows hp false rs) with _ | rows2
  · rfl
  have husd : ∀ r ∈ rows2.filter (fun r => decide (s ≤ r.date ∧ r.date ≤ e)),
      r.price_usd = none := by
    intro r hrr
    have h1 : r ∈ rows2 := List.mem_of_mem_filter hrr
    have h2 : rows2.Sublist (parseRows hp false rs) :=
      dropNullPrices_sublist hp false _ rows2 hdrop
    exact parseRows_noUsd hp rs r (h2.subset h1)
  dsimp only
  split
  · rfl
  split
  · rfl
  split
  · next hex =>
    rcases hex with ⟨r, hr, hne⟩
    exact absurd (husd r hr) hne
  · rfl

/-- For a BRL-native product whose frame lacks the `price_usd` column,
lines 350-352 take the conversion branch: the rate is attached per date
and `price_usd := price / rate`. -/
theorem convertCurrency_brl_noUsd (w : World) (code : String) (df : DF)
    (hcur : product_info_map code = some Currency.brl)
    (hus : df.hasPriceUsd = false) :
    convertCurrency w code df =
      ⟨true, true, df.rows.map (fun r =>
        { r with exchange_rate := some (w.rate r.date),
                 price_usd := r.price.map (fun p => p / w.rate r.date) })⟩ := by
  unfold convertCurrency
  dsimp only
  rw [if_pos ⟨hcur, Or.inl hus⟩]

/-- Every row the miss path returns for a BRL product whose scraped frame
has no `price_usd` column carries a non-null local price, the rate used
for its date, and a USD leg equal to `price / rate`. -/
theorem postProcess_brl_noUsd (w : World) (code : String) (df0 : DF)
    (hcur : product_info_map code = some Currency.brl)
    (hus : df0.hasPriceUsd = false) :
    ∀ r ∈ (postProcess w code df0).rows,
      ∃ p, r.price = some p ∧
        r.exchange_rate = some (w.rate r.date) ∧
        r.price_usd = some (p / w.rate r.date) := by
  intro r hr
  unfold postProcess at hr
  dsimp only at hr
  rw [convertCurrency_brl_noUsd w code
    ⟨df0.hasPriceUsd, df0.hasExchangeRate,
     df0.rows.filter (fun x => x.price.isSome)⟩ hcur hus] at hr
  have hr2 : r ∈ ((df0.rows.filter (fun x => x.price.isSome)).map (fun x =>
      { x with exchange_rate := some (w.rate x.date),
               price_usd := x.price.map (fun p => p / w.rate x.date) })).filter
      (fun x => x.price.isSome) := hr
  rcases List.mem_map.mp (List.mem_of_mem_filter hr2) with ⟨r0, h0, heq⟩
  have hp0 : r0.price.isSome := by
    have h := (List.mem_filter.mp h0).2
    simpa using h
  rcases Option.isSome_iff_exists.mp hp0 with ⟨p, hp⟩
  subst heq
  refine ⟨p, hp, rfl, ?_⟩
  show r0.price.map (fun q => q / w.rate r0.date) = some (p / w.rate r0.date)
  rw [hp]
  rfl

/-- Claim C6 as amended: on a cache miss for a BRL-native product whose
scraped table has no recognized USD column, every returned row has a
non-null local price, records `exchange_rate_used = rate(date)`, and
carries `price_usd = price / rate(date)` — hence, whenever the rate is
nonzero, `price_usd × rate` equals `price_local` exactly.  (When the
source supplies both legs itself, no consistency is enforced — see the
counterexample.) -/
theorem c6_amended_brl_usd_leg_computed (w : World) (code : String)
    (s e : Int) (hp : Bool) (rs : List RawRow)
    (hout : w.scrapeOutcome = ScrapeOutcome.table hp false rs)
    (hmiss : cacheMiss w code s e)
    (hcur : product_info_map code = some Currency.brl) :
    ∀ r ∈ (get_historical_prices w code s e).result.rows,
      ∃ p, r.price = some p ∧
        r.exchange_rate = some (w.rate r.date) ∧
        r.price_usd = some (p / w.rate r.date) ∧
        (w.rate r.date ≠ 0 → p / w.rate r.date * w.rate r.date = p) := by
  rw [get_historical_prices_of_miss w code s e hmiss]
  unfold fetchPath
  rw [hout]
  dsimp only
  split
  · intro r hr
    simp [DF.empty] at hr
  · intro r hr
    have hus := scrape_noUsdCol (product_info_map code) s e hp rs
    rcases postProcess_brl_noUsd w code _ hcur hus r hr with ⟨p, h1, h2, h3⟩
    exact ⟨p, h1, h2, h3, fun hzero => div_mul_cancel₀ p hzero⟩

/-- Witness for the amended C6: `"BGI"` with one scraped row
(date 3, price 100), no USD column, PTAX failing so the rate is the 5.0
fallback; the returned row `⟨3, price 100, price_usd 20, rate 5⟩` carries
exactly the legs the theorem promises. -/
theorem c6_amended_brl_usd_leg_computed_witness :
    (⟨3, some 100, some ((100 : ℚ) / 5), some 5⟩ : Row).price = some 100 ∧
    (⟨3, some 100, some ((100 : ℚ) / 5), some 5⟩ : Row).exchange_rate = some
      ((⟨fun _ _ _ => none,
         ScrapeOutcome.table true false [⟨some 3, some 100, none⟩],
         fun _ => RateFetchResult.failure, 1000⟩ : World).rate 3) ∧
    (⟨3, some 100, some ((100 : ℚ) / 5), some 5⟩ : Row).price_usd = some
      ((100 : ℚ) / (⟨fun _ _ _ => none,
         ScrapeOutcome.table true false [⟨some 3, some 100, none⟩],
         fun _ => RateFetchResult.failure, 1000⟩ : World).rate 3) := by
  have hmem : (⟨3, some 100, some ((100 : ℚ) / 5), some 5⟩ : Row) ∈
      (get_historical_prices
        ⟨fun _ _ _ => none,
         ScrapeOutcome.table true false [⟨some 3, some 100, none⟩],
         fun _ => RateFetchResult.failure, 1000⟩ "BGI" 0 10).result.rows := by
    show (⟨3, some 100, some ((100 : ℚ) / 5), some 5⟩ : Row) ∈
      [(⟨3, some 100, some ((100 : ℚ) / 5), some 5⟩ : Row)]
    exact List.mem_singleton.mpr rfl
  obtain ⟨p, h1, h2, h3, h4⟩ := c6_amended_brl_usd_leg_computed
    ⟨fun _ _ _ => none,
     ScrapeOutcome.table true false [⟨some 3, some 100, none⟩],
     fun _ => RateFetchResult.failure, 1000⟩
    "BGI" 0 10 true [⟨some 3, some 100, none⟩] rfl trivial (by decide)
    ⟨3, some 100, some ((100 : ℚ) / 5), some 5⟩ hmem
  have hp : p = 100 := by simpa using h1.symm
  subst hp
  exact ⟨h1, h2, h3⟩

/-- Observable outcome of one request `buscar_bcb` (app.py, lines 233-290)
issues: a `requests` exception (timeout, connection error — the
RequestException class, retried); a non-404 HTTP error status, whose
`raise_for_status` raises `HTTPError`, a RequestException subclass
(retried); an HTTP 404, with a flag telling whether its JSON body carries
`{"erro": ... "Value(s) not found" ...}` (a 404 whose body lacks the
pattern, or fails to parse — `JSONDecodeError` is also a RequestException
— falls through to `raise_for_status` and is retried); or a parsed JSON
payload of `(data, valor)` records, `valor` null when non-numeric. -/
inductive BcbResponse
  | reqError
  | httpErrorOther
  | http404 (matchesNotFound : Bool)
  | payload (rows : List (Int × Option ℚ))
deriving DecidableEq, Repr

/-- What `buscar_bcb` returns: a real sorted series, or the
`gerar_dados_exemplo` simulated frame (whose random contents are opaque
here — only the fact that simulated data was returned is observable). -/
inductive BcbResult
  | real (rows : List (Int × ℚ))
  | simulated
deriving DecidableEq, Repr

/-- Trace of one `buscar_bcb` call: the result, the series codes requested
in order, and the `time.sleep` durations performed in order. -/
structure BcbRun where
  result : BcbResult
  requests : List String
  sleeps : List Nat
deriving DecidableEq, Repr

/-- The `codigos_alternativos` dict of lines 254-258. -/
def codigos_alternativos (codigo : String) : Option String :=
  if codigo = "7461" then some "7811"
  else if codigo = "1" then some "7813"
  else if codigo = "2" then some "7825"
  else none

/-- Insertion step of the ascending sort by date (line 281
`sort_values('data')`; rows with equal dates keep their relative order). -/
def insertByDate (x : Int × ℚ) : List (Int × ℚ) → List (Int × ℚ)
  | [] => [x]
  | y :: ys => if x.1 < y.1 then x :: y :: ys else y :: insertByDate x ys

/-- Ascending sort by date of line 281. -/
def sortByDate (l : List (Int × ℚ)) : List (Int × ℚ) := l.foldr insertByDate []

/-- Lines 265-281 applied to a parsed payload: an empty JSON list raises
"Resposta vazia" (line 268), rows with a non-numeric `valor` are dropped
(line 276), an empty remainder raises "Nenhum dado válido" (line 279);
both raises land in the generic handler, hence `none` (simulated data);
otherwise the rows are sorted ascending by date. -/
def processPayload (raw : List (Int × Option ℚ)) : Option (List (Int × ℚ)) :=
  if raw = [] then none
  else
    let rows := raw.filterMap (fun p => p.2.map (fun v => (p.1, v)))
    if rows = [] then none else some (sortByDate rows)

/-- Exit of the `for attempt in range(max_retries)` loop for one series
code: either a result was produced (real or simulated), or a matching 404
asked for the one-time substitution, carrying the requests/sleeps
performed so far. -/
inductive LoopExit
  | done (r : BcbRun)
  | substitute (alt : String) (reqs : List String) (sleeps : List Nat)
deriving DecidableEq, Repr

/-- The retry loop of `buscar_bcb` (lines 238-290) for one series code:
`remaining` counts the attempts left (entered with 3 = `max_retries`).
Each iteration issues one request.  A matching 404 substitutes (line 260)
or, with no alternate, raises and degrades to simulated data (line 261);
any RequestException sleeps `retry_delay = 2` and retries, except on the
last attempt (`attempt == max_retries - 1`), which degrades to simulated
data; an empty or all-invalid payload degrades to simulated data without
any retry; a valid payload returns the sorted series. -/
def bcb_loop (fetch : String → Nat → BcbResponse) (codigo : String) :
    Nat → Nat → LoopExit
  | 0, _ => LoopExit.done ⟨BcbResult.simulated, [], []⟩
  | remaining + 1, attempt =>
    let retry : LoopExit :=
      if remaining = 0 then LoopExit.done ⟨BcbResult.simulated, [codigo], []⟩
      else
        match bcb_loop fetch codigo remaining (attempt + 1) with
        | LoopExit.done r =>
          LoopExit.done ⟨r.result, codigo :: r.requests, 2 :: r.sleeps⟩
        | LoopExit.substitute alt reqs sleeps =>
          LoopExit.substitute alt (codigo :: reqs) (2 :: sleeps)
    match fetch codigo attempt with
    | BcbResponse.reqError => retry
    | BcbResponse.httpErrorOther => retry
    | BcbResponse.http404 isMatch =>
      if isMatch then
        match codigos_alternativos codigo with
        | some alt => LoopExit.substitute alt [codigo] []
        | none => LoopExit.done ⟨BcbResult.simulated, [codigo], []⟩
      else retry
    | BcbResponse.payload raw =>
      match processPayload raw with
      | some rows => LoopExit.done ⟨BcbResult.real rows, [codigo], []⟩
      | none => LoopExit.done ⟨BcbResult.simulated, [codigo], []⟩

/-- `buscar_bcb` with explicit recursion fuel for the substitution call of
line 260 (`return buscar_bcb(codigos_alternativos[codigo], ...)`).  The
alternate codes 7811/7813/7825 are not themselves keys of
`codigos_alternativos`, so the Python recursion never exceeds depth 2; any
fuel ≥ 2 reproduces it exactly. -/
def buscar_bcb_fuel (fetch : String → Nat → BcbResponse) :
    Nat → String → BcbRun
  | 0, _ => ⟨BcbResult.simulated, [], []⟩
  | fuel + 1, codigo =>
    match bcb_loop fetch codigo 3 0 with
    | LoopExit.done r => r
    | LoopExit.substitute alt reqs sleeps =>
      let inner := buscar_bcb_fuel fetch fuel alt
      ⟨inner.result, reqs ++ inner.requests, sleeps ++ inner.sleeps⟩

/-- `buscar_bcb` (app.py, lines 232-290). -/
def buscar_bcb (fetch : String → Nat → BcbResponse) (codigo : String) :
    BcbRun :=
  buscar_bcb_fuel fetch 4 codigo

/-- Claim C7: (1) when every attempt raises a transient network error, the
central-bank fetch makes exactly its 3 bounded attempts for the code, with
a fixed 2-second sleep between consecutive attempts (and then degrades to
simulated data); (2) an HTTP 404 whose body matches "Value(s) not found"
for series "7461" is not retried: the only further request is the one-time
substitution to "7811", whose successful result is returned. -/
theorem c7_bcb_retry_and_substitution :
    (∀ (fetch : String → Nat → BcbResponse) (codigo : String),
      (∀ a, fetch codigo a = BcbResponse.reqError) →
      buscar_bcb fetch codigo =
        ⟨BcbResult.simulated, [codigo, codigo, codigo], [2, 2]⟩) ∧
    (∀ (fetch : String → Nat → BcbResponse) (raw : List (Int × Option ℚ))
      (rows : List (Int × ℚ)),
      fetch "7461" 0 = BcbResponse.http404 true →
      fetch "7811" 0 = BcbResponse.payload raw →
      processPayload raw = some rows →
      buscar_bcb fetch "7461" =
        ⟨BcbResult.real rows, ["7461", "7811"], []⟩) := by
  constructor
  · intro fetch codigo h
    have h0 := h 0
    have h1 := h 1
    have h2 := h 2
    have l2 : bcb_loop fetch codigo 1 2 =
        LoopExit.done ⟨BcbResult.simulated, [codigo], []⟩ := by
      simp [bcb_loop, h2]
    have l1 : bcb_loop fetch codigo 2 1 =
        LoopExit.done ⟨BcbResult.simulated, [codigo, codigo], [2]⟩ := by
      simp [bcb_loop, h1, h2]
    have l0 : bcb_loop fetch codigo 3 0 =
        LoopExit.done ⟨BcbResult.simulated, [codigo, codigo, codigo],
          [2, 2]⟩ := by
      simp [bcb_loop, h0, h1, h2]
    simp [buscar_bcb, buscar_bcb_fuel, l0]
  · intro fetch raw rows hfirst halt hproc
    have l0 : bcb_loop fetch "7461" 3 0 =
        LoopExit.substitute "7811" ["7461"] [] := by
      simp [bcb_loop, hfirst, codigos_alternativos]
    have lalt : bcb_loop fetch "7811" 3 0 =
        LoopExit.done ⟨BcbResult.real rows, ["7811"], []⟩ := by
      simp [bcb_loop, halt, hproc]
    simp [buscar_bcb, buscar_bcb_fuel, l0, lalt]

/-- Witness for C7: a fetch oracle whose every request for code "9999"
raises (part 1), and one where "7461" gets the matching 404 and "7811"
gets a two-row payload that sorts ascending (part 2). -/
theorem c7_bcb_retry_and_substitution_witness :
    buscar_bcb (fun _ _ => BcbResponse.reqError) "9999" =
      ⟨BcbResult.simulated, ["9999", "9999", "9999"], [2, 2]⟩ ∧
    buscar_bcb
      (fun c _ => if c = "7461" then BcbResponse.http404 true
        else BcbResponse.payload [(7, some 3), (5, some 4)]) "7461" =
      ⟨BcbResult.real [(5, 4), (7, 3)], ["7461", "7811"], []⟩ :=
  ⟨c7_bcb_retry_and_substitution.1 (fun _ _ => BcbResponse.reqError) "9999"
      (fun _ => rfl),
   c7_bcb_retry_and_substitution.2
      (fun c _ => if c = "7461" then BcbResponse.http404 true
        else BcbResponse.payload [(7, some 3), (5, some 4)])
      [(7, some 3), (5, some 4)] [(5, 4), (7, 3)]
      (by decide) (by decide) (by decide)⟩
